import Mathlib

/-!
Shallow embedding of `src/ipano.py`, the serial-protocol client for the iPANO
panoramic mount.

Modelling conventions, chosen once for the whole file:

* Python numbers (`int` and `float` arguments such as altitudes, azimuths and
  angles) are modelled as `ℚ`; `int(x)` is truncation toward zero (`ratTrunc`),
  matching CPython.  The decimal payload values appearing in the claims
  (`180.05`, `12.00`, …) are exactly representable this way.
* The serial port is a `Serial` state: `written` is the concatenation of every
  byte written so far, `pending` is the list of chunks that successive
  `self._serial.read(self._serial.in_waiting)` calls return.  The
  accumulate-until-terminator loop of `_communicate` is `readUntilHash`; a
  transport that never delivers the terminator makes the Python loop spin
  forever, modelled by the `Res.hang` outcome.
* A raised `BadParameter` is the `Res.bad` outcome carrying the exception
  object (message and the `str`-rendered value) together with the serial state
  at raise time; any other Python exception (`ValueError` from `float`/`int`
  or an `Enum` lookup, `IndexError`, `AttributeError`) is `Res.pyerr`.
* Python `f"{n:0{w}}"` integer formatting is `pyZeroPad` (zero padding counts
  the sign character, as in CPython); `Nat.repr` is the decimal rendering of a
  nonnegative integer.  `int(s)` / `float(s)` reply parsing is `pyInt` /
  `pyFloat`, covering the optional-sign decimal forms the protocol uses.
-/

namespace IPano

/-! ### Enumerations (`class DIRECTION / STATUS / PANORAMA_MODE (Enum)`) -/

inductive DIRECTION where
  | LEFT
  | RIGHT
  | UP
  | DOWN
deriving DecidableEq

def DIRECTION.value : DIRECTION → String
  | .LEFT => "l"
  | .RIGHT => "r"
  | .UP => "u"
  | .DOWN => "d"

inductive STATUS where
  | STOPPED
  | MOVING
  | WAITING
  | DELAYING
  | PAUSED
  | SHOOTING
deriving DecidableEq

def STATUS.value : STATUS → String
  | .STOPPED => "0"
  | .MOVING => "1"
  | .WAITING => "2"
  | .DELAYING => "3"
  | .PAUSED => "4"
  | .SHOOTING => "5"

/-- The `STATUS(x)` enum constructor: the variant whose wire value is `x`,
`none` when `x` is no variant's value (Python raises `ValueError`). -/
def STATUS.ofValue (x : String) : Option STATUS :=
  if x = "0" then some .STOPPED
  else if x = "1" then some .MOVING
  else if x = "2" then some .WAITING
  else if x = "3" then some .DELAYING
  else if x = "4" then some .PAUSED
  else if x = "5" then some .SHOOTING
  else none

inductive PANORAMA_MODE where
  | PREVIEW
  | MATRIX
  | THREE_SIXTY
  | TIME_LAPSE
deriving DecidableEq

def PANORAMA_MODE.value : PANORAMA_MODE → String
  | .PREVIEW => "0"
  | .MATRIX => "1"
  | .THREE_SIXTY => "2"
  | .TIME_LAPSE => "3"

/-- The `PANORAMA_MODE(x)` enum constructor, `none` on an unknown wire code
(Python raises `ValueError`). -/
def PANORAMA_MODE.ofValue (x : String) : Option PANORAMA_MODE :=
  if x = "0" then some .PREVIEW
  else if x = "1" then some .MATRIX
  else if x = "2" then some .THREE_SIXTY
  else if x = "3" then some .TIME_LAPSE
  else none

/-! ### `class BadParameter(Exception)` -/

/-- A `BadParameter` instance: `__init__` stores `message` and `value`
(`value=None` is `none`; a non-`None` value is stored already `str`-rendered,
since `__str__` only interpolates it). -/
structure BadParameter where
  message : String
  value : Option String
deriving DecidableEq

/-- Python attribute lookup on a `BadParameter` instance: `__init__` sets
exactly the attributes `value` and `message`; any other name is an
`AttributeError` (`none`).  An attribute can itself hold `None`. -/
def BadParameter.getattr (e : BadParameter) : String → Option (Option String)
  | "message" => some (some e.message)
  | "value" => some e.value
  | _ => none

/-- `BadParameter.__str__`: with a value it returns `f"[{self.value}] {self.message}"`;
with `value=None` it evaluates `self.mesage` — a misspelt attribute that was
never set — so the lookup fails and `__str__` itself raises (`none`). -/
def BadParameter.str (e : BadParameter) : Option String :=
  match e.value with
  | none =>
      match e.getattr "mesage" with
      | none => none
      | some v => some (v.getD "None")
  | some v => some ("[" ++ v ++ "] " ++ e.message)

/-! ### `def _fmt(val, length, precision=0, sign=False)` -/

/-- Python `int(q)` on a rational: truncation toward zero. -/
def ratTrunc (q : ℚ) : ℤ :=
  Int.tdiv q.num (q.den : ℤ)

/-- Left-pad a string with `'0'` to width `w` (no-op when already wider). -/
def padZeros (s : String) (w : ℕ) : String :=
  String.mk (List.replicate (w - s.length) '0') ++ s

/-- Python `f"{n:0{w}}"` on an `int`: zero-padded decimal, the pad width
counting the sign character of a negative number (CPython sign-aware
zero padding); a number needing more than `w` digits expands the field. -/
def pyZeroPad (n : ℤ) (w : ℕ) : String :=
  if n < 0 then "-" ++ padZeros (Nat.repr n.natAbs) (w - 1)
  else padZeros (Nat.repr n.natAbs) w

/-- `_fmt(val, length, precision, sign)` from the source: an explicit sign
from the original value when `sign` is set (then the absolute value is used),
scaling by `10 ** precision`, `int(...)` truncation, zero-padded rendering. -/
def _fmt (val : ℚ) (length precision : ℕ) (sign : Bool) : String :=
  let s := if sign then (if val < 0 then "-" else "+") else ""
  let v := if sign then |val| else val
  s ++ pyZeroPad (ratTrunc (v * ((10 ^ precision : ℕ) : ℚ))) length

/-! ### Python `int(...)` / `float(...)` reply parsing -/

def isDig (c : Char) : Bool :=
  48 ≤ c.toNat && c.toNat ≤ 57

def digitsVal (l : List Char) : ℕ :=
  l.foldl (fun a c => 10 * a + (c.toNat - 48)) 0

/-- A nonempty all-digit character run and its value, else `none`. -/
def digitsVal? (l : List Char) : Option ℕ :=
  if !l.isEmpty && l.all isDig then some (digitsVal l) else none

/-- Python `int(s)` on the decimal forms the protocol uses: an optional
leading sign and a nonempty digit run; anything else raises (`none`). -/
def pyInt (s : String) : Option ℤ :=
  match s.data with
  | [] => none
  | c :: rest =>
      if c = '+' then (digitsVal? rest).map (fun n => (n : ℤ))
      else if c = '-' then (digitsVal? rest).map (fun n => -(n : ℤ))
      else (digitsVal? (c :: rest)).map (fun n => (n : ℤ))

/-- The unsigned part of Python `float(s)`: digits with at most one point,
at least one digit overall (`"1."`, `".5"` parse; `"."`, `""` raise).
Exponent, infinity and nan forms never occur on this wire and are omitted. -/
def pyFloatCore (l : List Char) : Option ℚ :=
  match l.splitOn '.' with
  | [d] => (digitsVal? d).map (fun n => (n : ℚ))
  | [i, f] =>
      if (i.isEmpty && f.isEmpty) || !(i.all isDig && f.all isDig) then none
      else some ((digitsVal i : ℚ) + (digitsVal f : ℚ) / ((10 ^ f.length : ℕ) : ℚ))
  | _ => none

/-- Python `float(s)` on the decimal forms the protocol uses. -/
def pyFloat (s : String) : Option ℚ :=
  match s.data with
  | [] => none
  | c :: rest =>
      if c = '+' then pyFloatCore rest
      else if c = '-' then (pyFloatCore rest).map Neg.neg
      else pyFloatCore (c :: rest)

/-! ### The serial transport and `IPANO._communicate` -/

/-- The observable state of the serial port: everything written so far and
the chunks still to be returned by successive `read(in_waiting)` calls. -/
structure Serial where
  written : String
  pending : List String
deriving DecidableEq

/-- Outcome of an operation on the mount: a value with the new serial state,
a raised `BadParameter`, another raised Python exception, or the read loop
blocking forever because no terminator arrives. -/
inductive Res (α : Type) where
  | ok : α → Serial → Res α
  | bad : BadParameter → Serial → Res α
  | pyerr : Serial → Res α
  | hang : Serial → Res α
deriving DecidableEq

/-- The accumulate-until-terminator loop of `_communicate`: starting from the
accumulated text `acc`, keep appending pending chunks until the accumulation
ends with `'#'`; returns the accumulation and the unconsumed chunks, or `none`
when the chunks run out first (the Python loop would block forever). -/
def readUntilHash (cs : List String) (acc : String) : Option (String × List String) :=
  if acc.data.getLast? = some '#' then some (acc, cs)
  else
    match cs with
    | [] => none
    | c :: cs' => readUntilHash cs' (acc ++ c)

/-- `IPANO._communicate(instruction, data, output)`.  The `data` argument is
the already-joined string (`"".join(str(d) for d in data)`); the callers below
perform that join.  Validation precedes the write; the frame is
`":01" + instruction + data + "#"`; with `output` the reply is accumulated to
the terminator and returned stripped of its 6-character echoed header and the
trailing terminator (`response[6:-1]`). -/
def _communicate (st : Serial) (instruction data : String) (output : Bool) :
    Res (Option String) :=
  if instruction.length ≠ 3 then
    .bad ⟨"Instruction must be a 3 character sequence.", some instruction⟩ st
  else if data.length > 33 then
    .bad ⟨"Data must be at most 33 chars.", some (Nat.repr data.length)⟩ st
  else
    let message := ":01" ++ instruction ++ data ++ "#"
    let written' := st.written ++ message
    if output then
      match readUntilHash st.pending "" with
      | some (response, rest) =>
          .ok (some ((response.drop 6).dropRight 1)) ⟨written', rest⟩
      | none => .hang ⟨written', []⟩
    else
      .ok none ⟨written', st.pending⟩

/-! ### The device facade (the `IPANO` methods the claims are about) -/

/-- `IPANO.move(dir)`: fire-and-forget motion start, `output=False`. -/
def move (st : Serial) (dir : DIRECTION) : Res (Option String) :=
  _communicate st ("mv" ++ dir.value) "" false

/-- Python `str.lower()` over the ASCII axis names used here. -/
def pyLower (s : String) : String :=
  String.mk (s.data.map Char.toLower)

/-- `IPANO.stop(axis)` with `axis=None` or a string axis name. -/
def stop (st : Serial) (axis : Option String) : Res (Option String) :=
  match axis with
  | none => _communicate st "mqq" "" true
  | some a =>
      if pyLower a = "none" then _communicate st "mqq" "" true
      else if pyLower a = "az" then _communicate st "qAZ" "" true
      else if pyLower a = "alt" then _communicate st "qAL" "" true
      else .bad ⟨"Axis must be None, \'alt\' or \'az\'.", some a⟩ st

/-- Decimal rendering of a rational for error-message interpolation; the
facade only ever raises with integral numeric values, rendered as Python
renders an `int`. -/
def ratStr (q : ℚ) : String :=
  if q.den = 1 then
    (if q.num < 0 then "-" ++ Nat.repr q.num.natAbs else Nat.repr q.num.natAbs)
  else
    (if q.num < 0 then "-" ++ Nat.repr q.num.natAbs else Nat.repr q.num.natAbs)
      ++ "/" ++ Nat.repr q.den

/-- `IPANO.goto(alt, az)`: range validation, then
`_communicate("SSL", [_fmt(alt, 5, 2, sign=True), _fmt(az, 5, 2)])`. -/
def goto (st : Serial) (alt az : ℚ) : Res (Option String) :=
  if alt < -180 ∨ alt > 180 then
    .bad ⟨"Altitude must be in [-180, 180] range.", some (ratStr alt)⟩ st
  else if az < 0 ∨ az > 360 then
    .bad ⟨"Azimuth must be in the [0, 360] range.", some (ratStr az)⟩ st
  else
    _communicate st "SSL" (_fmt alt 5 2 true ++ _fmt az 5 2 false) true

/-- `IPANO.set_reference_point(id)`. -/
def set_reference_point (st : Serial) (id : ℤ) : Res (Option String) :=
  if id = 0 then _communicate st "SOP" "0" true
  else if id = 2 then _communicate st "SOP" "1" true
  else
    .bad ⟨"ID can only be 0 or 2.", some
      (if id < 0 then "-" ++ Nat.repr id.natAbs else Nat.repr id.natAbs)⟩ st

/-- `IPANO.set_timelapse(N, ang)`: two `STL` frames, selector `0` with
`_fmt(N, 5)` and selector `1` with `_fmt(ang, 3, 1, sign=True)`; the data
lists are joined by `str` concatenation in `_communicate`. -/
def set_timelapse (st : Serial) (N ang : ℚ) : Res (Option String) :=
  match _communicate st "STL" ("0" ++ _fmt N 5 0 false) true with
  | .ok _ st1 => _communicate st1 "STL" ("1" ++ _fmt ang 3 1 true) true
  | .bad e s => .bad e s
  | .pyerr s => .pyerr s
  | .hang s => .hang s

/-- `IPANO.status()`: `res[:6]` and `res[6:-1]` as floats over 100, and
`STATUS(res[-1])` from the final payload character (`res[-1]` on an empty
payload is an `IndexError`). -/
def status (st : Serial) : Res (ℚ × ℚ × STATUS) :=
  match _communicate st "GAS" "" true with
  | .ok (some res) st1 =>
      match pyFloat (res.take 6) with
      | none => .pyerr st1
      | some alt =>
          match pyFloat ((res.drop 6).dropRight 1) with
          | none => .pyerr st1
          | some az =>
              match res.data.getLast? with
              | none => .pyerr st1
              | some c =>
                  match STATUS.ofValue (String.mk [c]) with
                  | none => .pyerr st1
                  | some mode => .ok (alt / 100, az / 100, mode) st1
  | .ok none st1 => .pyerr st1
  | .bad e s => .bad e s
  | .pyerr s => .pyerr s
  | .hang s => .hang s

/-- `IPANO.check_last()`: `PANORAMA_MODE(res)` over the whole payload. -/
def check_last (st : Serial) : Res PANORAMA_MODE :=
  match _communicate st "GRE" "" true with
  | .ok (some res) st1 =>
      match PANORAMA_MODE.ofValue res with
      | none => .pyerr st1
      | some m => .ok m st1
  | .ok none st1 => .pyerr st1
  | .bad e s => .bad e s
  | .pyerr s => .pyerr s
  | .hang s => .hang s

/-- `IPANO.get_progress()`: `int(res[:5]), int(res[5:])`. -/
def get_progress (st : Serial) : Res (ℤ × ℤ) :=
  match _communicate st "GPG" "" true with
  | .ok (some res) st1 =>
      match pyInt (res.take 5) with
      | none => .pyerr st1
      | some a =>
          match pyInt (res.drop 5) with
          | none => .pyerr st1
          | some b => .ok (a, b) st1
  | .ok none st1 => .pyerr st1
  | .bad e s => .bad e s
  | .pyerr s => .pyerr s
  | .hang s => .hang s

/-- The timelapse angle field as the source encodes it: the second `STL`
frame's value part, `_fmt(ang, 3, 1, sign=True)`. -/
def timelapseAngleField (ang : ℚ) : String :=
  _fmt ang 3 1 true

/-- The timelapse angle rule as the claim describes it (for comparison with
`timelapseAngleField`): divide the angle by 10, truncate toward zero to an
integer, then render a sign and the 3-digit zero-padded magnitude. -/
def timelapseAngleClaimDiv10 (ang : ℚ) : String :=
  (if ang < 0 then "-" else "+")
    ++ padZeros (Nat.repr (ratTrunc (ang / 10)).natAbs) 3

/-- Decimal digit list of `n`, most significant first: the specification
`Nat.repr` is proved against (`digitsOf` recurses on the value, core
`Nat.toDigitsCore` on fuel). -/
def digitsOf (n : ℕ) : List Char :=
  if n < 10 then [Nat.digitChar n]
  else digitsOf (n / 10) ++ [Nat.digitChar (n % 10)]
termination_by n
decreasing_by
  omega

/-! ### Helper lemmas -/

theorem ratTrunc_intCast (t : ℤ) : ratTrunc ((t : ℚ)) = t := by
  unfold ratTrunc
  rw [Rat.num_intCast, Rat.den_intCast]
  simp [Int.tdiv_one]

/-- Evaluation bridge for `_fmt`: once the scaled value is identified with an
integer literal (a `norm_num` side condition), the formatter's output is a
plain `pyZeroPad`. -/
theorem fmt_eval (val : ℚ) (length p : ℕ) (sign : Bool) (t : ℤ)
    (h : (if sign then |val| else val) * ((10 ^ p : ℕ) : ℚ) = (t : ℚ)) :
    _fmt val length p sign =
      (if sign then (if val < 0 then "-" else "+") else "") ++ pyZeroPad t length := by
  simp only [_fmt]
  rw [h, ratTrunc_intCast]

/-! ### Claim C1 -/

/-- Claim C1: `move(LEFT)` writes exactly the byte sequence `":01mvl#"` to the
transport and performs no read: the pending input chunks are untouched and the
call returns `None` without waiting for a reply. -/
theorem move_left_writes_frame_no_read (st : Serial) :
    move st DIRECTION.LEFT = .ok none ⟨st.written ++ ":01mvl#", st.pending⟩ := by
  rfl

/-! ### Claim C2 -/

/-- Claim C2: frame encoding fails with the instruction-length error for every
opcode whose length is not 3, and (with a well-formed opcode) with the
data-too-long error for every data string over 33 characters; in both cases
the serial state is returned unchanged, so validation precedes the write and
no bytes leave the client. -/
theorem communicate_validation (st : Serial) (instr data : String) (output : Bool) :
    (instr.length ≠ 3 →
      _communicate st instr data output =
        .bad ⟨"Instruction must be a 3 character sequence.", some instr⟩ st) ∧
    (instr.length = 3 → data.length > 33 →
      _communicate st instr data output =
        .bad ⟨"Data must be at most 33 chars.", some (Nat.repr data.length)⟩ st) := by
  constructor
  · intro h
    unfold _communicate
    rw [if_pos h]
  · intro h3 h33
    unfold _communicate
    rw [if_neg (fun hc => hc h3), if_pos h33]

/-- Witness for C2 at concrete inputs: a 4-character opcode and a 34-character
data string, each rejected with the corresponding error and an unchanged
transport. -/
theorem communicate_validation_witness :
    _communicate ⟨"", []⟩ "mvlx" "" true =
      .bad ⟨"Instruction must be a 3 character sequence.", some "mvlx"⟩ ⟨"", []⟩ ∧
    _communicate ⟨"", []⟩ "STL" "0123456789012345678901234567890123" true =
      .bad ⟨"Data must be at most 33 chars.", some "34"⟩ ⟨"", []⟩ := by
  constructor
  · exact (communicate_validation ⟨"", []⟩ "mvlx" "" true).1 (by decide)
  · exact (communicate_validation ⟨"", []⟩ "STL" "0123456789012345678901234567890123"
      true).2 (by decide) (by decide)

/-! ### Claim C3 -/

/-- Claim C3: `goto` raises the altitude domain error at `alt = 181` and the
azimuth domain error at `az = -1`, accepts the inclusive boundaries
`alt ∈ {-180, 180}`, `az ∈ {0, 360}` (proceeding to encode and transmit), and
on a range violation returns with the serial state unchanged — before any
encoding is attempted or any byte is written. -/
theorem goto_range_validation (st : Serial) (alt az : ℚ) :
    goto st 181 az =
      .bad ⟨"Altitude must be in [-180, 180] range.", some "181"⟩ st ∧
    (-180 ≤ alt → alt ≤ 180 →
      goto st alt (-1) =
        .bad ⟨"Azimuth must be in the [0, 360] range.", some "-1"⟩ st) ∧
    (-180 ≤ alt → alt ≤ 180 → 0 ≤ az → az ≤ 360 →
      goto st alt az =
        _communicate st "SSL" (_fmt alt 5 2 true ++ _fmt az 5 2 false) true) := by
  refine ⟨?_, ?_, ?_⟩
  · unfold goto
    rw [if_pos (by norm_num)]
    rfl
  · intro h1 h2
    unfold goto
    rw [if_neg (by push_neg; exact ⟨h1, h2⟩), if_pos (by norm_num)]
    rfl
  · intro h1 h2 h3 h4
    unfold goto
    rw [if_neg (by push_neg; exact ⟨h1, h2⟩), if_neg (by push_neg; exact ⟨h3, h4⟩)]

/-- Witness for C3 at concrete inputs: rejection of `alt = 181` and `az = -1`,
and acceptance at the boundary corner `alt = -180`, `az = 360`. -/
theorem goto_range_validation_witness :
    goto ⟨"", []⟩ 181 360 =
      .bad ⟨"Altitude must be in [-180, 180] range.", some "181"⟩ ⟨"", []⟩ ∧
    goto ⟨"", []⟩ (-180) (-1) =
      .bad ⟨"Azimuth must be in the [0, 360] range.", some "-1"⟩ ⟨"", []⟩ ∧
    goto ⟨"", []⟩ (-180) 360 =
      _communicate ⟨"", []⟩ "SSL"
        (_fmt (-180) 5 2 true ++ _fmt 360 5 2 false) true := by
  refine ⟨(goto_range_validation ⟨"", []⟩ (-180) 360).1,
    (goto_range_validation ⟨"", []⟩ (-180) 360).2.1 (by norm_num) (by norm_num),
    (goto_range_validation ⟨"", []⟩ (-180) 360).2.2 (by norm_num) (by norm_num)
      (by norm_num) (by norm_num)⟩

/-- A successful request/reply round trip of `_communicate`: with a valid
opcode and data, the frame is appended to the written bytes, the reply is
accumulated to the terminator, and the payload is `response[6:-1]`. -/
theorem communicate_ok (st : Serial) (instr data response : String)
    (rest : List String) (h3 : instr.length = 3) (h33 : data.length ≤ 33)
    (hr : readUntilHash st.pending "" = some (response, rest)) :
    _communicate st instr data true =
      .ok (some ((response.drop 6).dropRight 1))
        ⟨st.written ++ (":01" ++ instr ++ data ++ "#"), rest⟩ := by
  unfold _communicate
  rw [if_neg (fun hc => hc h3), if_neg (by omega), if_pos rfl, hr]

/-! ### Claim C4 -/

/-- Claim C4: `status()` decodes its reply payload `res` as
`altitude = float(res[:6]) / 100`, `azimuth = float(res[6:-1]) / 100` and
`mode = STATUS(res[-1])`, the variant for the final payload character. -/
theorem status_decode (st : Serial) (response res : String) (rest : List String)
    (a z : ℚ) (c : Char) (m : STATUS)
    (hr : readUntilHash st.pending "" = some (response, rest))
    (hres : res = (response.drop 6).dropRight 1)
    (ha : pyFloat (res.take 6) = some a)
    (hz : pyFloat ((res.drop 6).dropRight 1) = some z)
    (hc : res.data.getLast? = some c)
    (hm : STATUS.ofValue (String.mk [c]) = some m) :
    status st = .ok (a / 100, z / 100, m) ⟨st.written ++ ":01GAS#", rest⟩ := by
  subst hres
  unfold status
  rw [communicate_ok st "GAS" "" response rest (by decide) (by decide) hr]
  simp only [ha, hz, hc, hm]
  rfl

/-- Witness for C4: a transport whose reply is a 6-character echoed header,
the payload `"018005+1200"` and the terminal status digit `"0"` decodes to
altitude `180.05`, azimuth `12.00`, mode `STOPPED`. -/
theorem status_decode_witness :
    status ⟨"", ["XXXXXX018005+12000#"]⟩ =
      .ok ((180.05 : ℚ), (12 : ℚ), STATUS.STOPPED) ⟨":01GAS#", []⟩ := by
  have h := status_decode ⟨"", ["XXXXXX018005+12000#"]⟩ "XXXXXX018005+12000#"
    "018005+12000" [] 18005 1200 '0' STATUS.STOPPED (by decide) (by decide)
    (by decide) (by decide) (by decide) (by decide)
  have e1 : (18005 : ℚ) / 100 = 180.05 := by norm_num
  have e2 : (1200 : ℚ) / 100 = 12 := by norm_num
  rw [e1, e2] at h
  exact h

/-! ### Claim C5 -/

/-- Claim C5: reply decoding strips the first 6 characters (the echoed
header) and the trailing terminator from the accumulated response and hands
`response[6:-1]` to the operation's parser; `get_progress()` over a transport
returning `"AAAAAA0001000020#"` yields the integer pair `(10, 20)` from the
two 5-character fields of the payload. -/
theorem reply_strip_and_progress (st : Serial) (instr data response : String)
    (rest : List String) :
    (instr.length = 3 → data.length ≤ 33 →
      readUntilHash st.pending "" = some (response, rest) →
      _communicate st instr data true =
        .ok (some ((response.drop 6).dropRight 1))
          ⟨st.written ++ (":01" ++ instr ++ data ++ "#"), rest⟩) ∧
    get_progress ⟨"", ["AAAAAA0001000020#"]⟩ = .ok (10, 20) ⟨":01GPG#", []⟩ := by
  constructor
  · intro h3 h33 hr
    exact communicate_ok st instr data response rest h3 h33 hr
  · decide

/-- Witness for C5's universally quantified part: the `GPG` round trip over
the transport of the claim's scenario strips `"AAAAAA"` and `"#"`, leaving
payload `"0001000020"`. -/
theorem reply_strip_and_progress_witness :
    _communicate ⟨"", ["AAAAAA0001000020#"]⟩ "GPG" "" true =
      .ok (some "0001000020") ⟨":01GPG#", []⟩ := by
  exact (reply_strip_and_progress ⟨"", ["AAAAAA0001000020#"]⟩ "GPG" ""
    "AAAAAA0001000020#" []).1 (by decide) (by decide) (by decide)

/-! ### Decimal-digit lemmas for the `_fmt` round trip -/

theorem digitChar_toNat (d : ℕ) (h : d < 10) : (Nat.digitChar d).toNat = 48 + d := by
  interval_cases d <;> decide

theorem digitChar_isDig (d : ℕ) (h : d < 10) : isDig (Nat.digitChar d) = true := by
  interval_cases d <;> decide

theorem digitsOf_spec (n : ℕ) :
    digitsOf n ≠ [] ∧ (∀ c ∈ digitsOf n, isDig c = true) ∧
      ∀ a : ℕ, (digitsOf n).foldl (fun a c => 10 * a + (c.toNat - 48)) a =
        a * 10 ^ (digitsOf n).length + n := by
  induction n using Nat.strong_induction_on with
  | _ n ih =>
    by_cases h : n < 10
    · rw [digitsOf, if_pos h]
      refine ⟨by simp, ?_, ?_⟩
      · intro c hc
        rw [List.mem_singleton] at hc
        subst hc
        exact digitChar_isDig n h
      · intro a
        simp [digitChar_toNat n h]
        ring
    · rw [digitsOf, if_neg h]
      have hlt : n / 10 < n := Nat.div_lt_self (by omega) (by norm_num)
      obtain ⟨hne, hdig, hval⟩ := ih (n / 10) hlt
      have hm : n % 10 < 10 := Nat.mod_lt _ (by omega)
      refine ⟨by simp, ?_, ?_⟩
      · intro c hc
        rcases List.mem_append.mp hc with h1 | h2
        · exact hdig c h1
        · rw [List.mem_singleton] at h2
          subst h2
          exact digitChar_isDig (n % 10) hm
      · intro a
        rw [List.foldl_append, List.foldl_cons, List.foldl_nil, hval a,
          List.length_append, List.length_singleton, digitChar_toNat (n % 10) hm]
        have hdm : 10 * (n / 10) + n % 10 = n := by omega
        calc 10 * (a * 10 ^ (digitsOf (n / 10)).length + n / 10) + (48 + n % 10 - 48)
            = a * (10 ^ (digitsOf (n / 10)).length * 10) + (10 * (n / 10) + n % 10) := by
              simp only [Nat.add_sub_cancel_left]
              ring
          _ = a * 10 ^ ((digitsOf (n / 10)).length + 1) + n := by rw [hdm, pow_succ]

theorem toDigitsCore_eq (fuel : ℕ) :
    ∀ (n : ℕ) (ds : List Char), n < fuel →
      Nat.toDigitsCore 10 fuel n ds = digitsOf n ++ ds := by
  induction fuel with
  | zero => omega
  | succ k ih =>
    intro n ds hn
    simp only [Nat.toDigitsCore]
    by_cases h : n < 10
    · rw [if_pos (Nat.div_eq_of_lt h), digitsOf, if_pos h, Nat.mod_eq_of_lt h]
      rfl
    · have h0 : n / 10 ≠ 0 := by omega
      have hlt : n / 10 < k := lt_of_lt_of_le (Nat.div_lt_self (by omega) (by norm_num)) (by omega)
      rw [if_neg h0, ih (n / 10) (Nat.digitChar (n % 10) :: ds) hlt]
      conv_rhs => rw [digitsOf, if_neg h]
      rw [List.append_assoc]
      rfl

theorem nat_repr_eq_digitsOf (n : ℕ) : Nat.repr n = String.mk (digitsOf n) := by
  unfold Nat.repr Nat.toDigits
  rw [toDigitsCore_eq (n + 1) n [] (Nat.lt_succ_self n), List.append_nil]
  rfl

theorem isDig_ne_sign (c : Char) (h : isDig c = true) : c ≠ '+' ∧ c ≠ '-' := by
  constructor <;> intro he <;> subst he <;> simp [isDig] at h

theorem foldl_replicate_zeros (k : ℕ) :
    ∀ a : ℕ, (List.replicate k '0').foldl (fun a c => 10 * a + (c.toNat - 48)) a =
      a * 10 ^ k := by
  induction k with
  | zero => intro a; simp
  | succ m ih =>
      intro a
      rw [List.replicate_succ, List.foldl_cons, ih]
      have h0 : ('0').toNat - 48 = 0 := rfl
      rw [h0, Nat.add_zero, pow_succ]
      ring

/-- Parsing the zero-padded decimal rendering of `v` back as an integer
recovers `v`, for every pad width. -/
theorem pyInt_padZeros_repr (v w : ℕ) :
    pyInt (padZeros (Nat.repr v) w) = some ((v : ℤ)) := by
  obtain ⟨hne, hdig, hval⟩ := digitsOf_spec v
  rw [nat_repr_eq_digitsOf]
  unfold padZeros
  set k := w - (String.mk (digitsOf v)).length with hk
  have hdata : (String.mk (List.replicate k '0') ++ String.mk (digitsOf v)).data
      = List.replicate k '0' ++ digitsOf v := rfl
  have halldig : ∀ c ∈ List.replicate k '0' ++ digitsOf v, isDig c = true := by
    intro c hc
    rcases List.mem_append.mp hc with h1 | h2
    · rw [List.eq_of_mem_replicate h1]
      decide
    · exact hdig c h2
  have hvalue : digitsVal (List.replicate k '0' ++ digitsOf v) = v := by
    unfold digitsVal
    rw [List.foldl_append, foldl_replicate_zeros, hval]
    simp
  cases hl : List.replicate k '0' ++ digitsOf v with
  | nil =>
      exfalso
      rcases List.append_eq_nil.mp hl with ⟨-, h2⟩
      exact hne h2
  | cons c rest =>
      have hcdig : isDig c = true := halldig c (by rw [hl]; exact List.mem_cons_self c rest)
      obtain ⟨hplus, hminus⟩ := isDig_ne_sign c hcdig
      unfold pyInt
      rw [hdata, hl]
      simp only [if_neg hplus, if_neg hminus]
      have : digitsVal? (c :: rest) = some v := by
        unfold digitsVal?
        rw [if_pos, ← hl, hvalue]
        rw [← hl]
        simp only [Bool.and_eq_true, List.all_eq_true]
        exact ⟨by simp [List.isEmpty_iff, hl], halldig⟩
      rw [this]
      rfl

/-! ### Claim C6 -/

/-- Claim C6: for every integer `v` and width `w` with `0 ≤ v < 10 ^ w`,
parsing the unsigned precision-0 output of the value formatter back as a
decimal integer recovers `v`. -/
theorem fmt_roundtrip (v w : ℕ) (_h : v < 10 ^ w) :
    pyInt (_fmt (v : ℚ) w 0 false) = some ((v : ℤ)) := by
  rw [fmt_eval (v : ℚ) w 0 false ((v : ℤ)) (by push_cast; ring)]
  show pyInt ("" ++ pyZeroPad ((v : ℤ)) w) = some ((v : ℤ))
  have hempty : ("" : String) ++ pyZeroPad ((v : ℤ)) w = pyZeroPad ((v : ℤ)) w := rfl
  rw [hempty]
  unfold pyZeroPad
  rw [if_neg (not_lt.mpr (Int.natCast_nonneg v)), Int.natAbs_ofNat]
  exact pyInt_padZeros_repr v w

/-- Witness for C6 at `v = 47`, `w = 5`: `_fmt` renders `"00047"` and parsing
recovers `47`. -/
theorem fmt_roundtrip_witness :
    47 < 10 ^ 5 ∧ pyInt (_fmt ((47 : ℕ) : ℚ) 5 0 false) = some ((47 : ℤ)) :=
  ⟨by norm_num, fmt_roundtrip 47 5 (by norm_num)⟩

/-! ### Claim C7 -/

/-- Counterexample to C7: in unsigned mode a negative value is not an error —
`_fmt(-5, 5)` returns the string `"-0005"` (CPython sign-aware zero padding),
which is not a pure digit string and is produced without any exception. -/
theorem fmt_unsigned_negative_counterexample :
    _fmt (-5 : ℚ) 5 0 false = "-0005" ∧
      ((_fmt (-5 : ℚ) 5 0 false).data.all isDig) = false := by
  have h : _fmt (-5 : ℚ) 5 0 false = "-0005" := by
    rw [fmt_eval (-5 : ℚ) 5 0 false (-5 : ℤ) (by push_cast; ring)]
    rfl
  exact ⟨h, by rw [h]; decide⟩

/-- Claim C7 as amended: in unsigned mode the formatter emits the zero-padded
digit string of the truncated scaled value whenever the input is nonnegative;
a negative (truncated scaled) value is not rejected — the formatter emits a
leading `'-'` followed by the magnitude zero-padded to one character less. -/
theorem fmt_unsigned_behaviour (v : ℚ) (w p : ℕ) :
    (0 ≤ v → _fmt v w p false =
      padZeros (Nat.repr (ratTrunc (v * ((10 ^ p : ℕ) : ℚ))).natAbs) w) ∧
    (ratTrunc (v * ((10 ^ p : ℕ) : ℚ)) < 0 → _fmt v w p false =
      "-" ++ padZeros (Nat.repr (ratTrunc (v * ((10 ^ p : ℕ) : ℚ))).natAbs) (w - 1)) := by
  constructor
  · intro hv
    have hnn : 0 ≤ ratTrunc (v * ((10 ^ p : ℕ) : ℚ)) := by
      unfold ratTrunc
      refine Int.tdiv_nonneg ?_ ?_
      · exact Rat.num_nonneg.mpr (mul_nonneg hv (by positivity))
      · exact_mod_cast Nat.zero_le _
    show ("" : String) ++ pyZeroPad (ratTrunc (v * ((10 ^ p : ℕ) : ℚ))) w = _
    unfold pyZeroPad
    rw [if_neg (not_lt.mpr hnn)]
    rfl
  · intro hneg
    show ("" : String) ++ pyZeroPad (ratTrunc (v * ((10 ^ p : ℕ) : ℚ))) w = _
    unfold pyZeroPad
    rw [if_pos hneg]
    rfl

/-- Witness for C7's amended statement: `_fmt(3, 4)` is the plain padded digit
string `"0003"`, while `_fmt(-5, 5)` silently renders `"-0005"`. -/
theorem fmt_unsigned_behaviour_witness :
    _fmt (3 : ℚ) 4 0 false =
      padZeros (Nat.repr (ratTrunc ((3 : ℚ) * ((10 ^ 0 : ℕ) : ℚ))).natAbs) 4 ∧
    _fmt (-5 : ℚ) 5 0 false =
      "-" ++ padZeros (Nat.repr (ratTrunc ((-5 : ℚ) * ((10 ^ 0 : ℕ) : ℚ))).natAbs) (5 - 1) := by
  have h5 : ((-5 : ℚ) * ((10 ^ 0 : ℕ) : ℚ)) = ((-5 : ℤ) : ℚ) := by norm_num
  constructor
  · exact (fmt_unsigned_behaviour 3 4 0).1 (by norm_num)
  · refine (fmt_unsigned_behaviour (-5) 5 0).2 ?_
    rw [h5, ratTrunc_intCast]
    norm_num

/-! ### Claim C8 -/

/-- Counterexample to C8: at angle `20` the source's timelapse angle field is
`"+200"` (the shared formatter: multiply by 10, truncate, pad to 3), while the
claimed divide-by-10-then-truncate rule would give `"+002"`; the two differ,
so the source encoding does not divide the angle by 10. -/
theorem timelapse_angle_counterexample :
    timelapseAngleField 20 = "+200" ∧ timelapseAngleClaimDiv10 20 = "+002" ∧
      timelapseAngleField 20 ≠ timelapseAngleClaimDiv10 20 := by
  have h1 : timelapseAngleField 20 = "+200" := by
    unfold timelapseAngleField
    rw [fmt_eval 20 3 1 true 200 (by norm_num)]
    rfl
  have h2 : timelapseAngleClaimDiv10 20 = "+002" := by
    unfold timelapseAngleClaimDiv10
    have hq : ((20 : ℚ) / 10) = ((2 : ℤ) : ℚ) := by norm_num
    rw [hq, ratTrunc_intCast]
    rfl
  refine ⟨h1, h2, ?_⟩
  rw [h1, h2]
  decide

/-- Claim C8 as amended: the timelapse angle field (the `STL` selector-1
field) is exactly the shared value formatter at width 3, precision 1, signed —
it multiplies the angle by 10 and truncates toward zero, rendering the sign of
the original angle and the 3-digit zero-padded magnitude — and
`set_timelapse` transmits precisely this field in its second frame. -/
theorem timelapse_angle_encoding (st : Serial) (N ang : ℚ) (response : String)
    (rest : List String) :
    timelapseAngleField ang = _fmt ang 3 1 true ∧
    timelapseAngleField ang =
      (if ang < 0 then "-" else "+")
        ++ padZeros (Nat.repr (ratTrunc (|ang| * ((10 ^ 1 : ℕ) : ℚ))).natAbs) 3 ∧
    ((_fmt N 5 0 false).length ≤ 32 →
      readUntilHash st.pending "" = some (response, rest) →
      set_timelapse st N ang =
        _communicate
          ⟨st.written ++ (":01" ++ "STL" ++ ("0" ++ _fmt N 5 0 false) ++ "#"), rest⟩
          "STL" ("1" ++ timelapseAngleField ang) true) := by
  refine ⟨rfl, ?_, ?_⟩
  · have hnn : 0 ≤ ratTrunc (|ang| * ((10 ^ 1 : ℕ) : ℚ)) := by
      unfold ratTrunc
      refine Int.tdiv_nonneg ?_ ?_
      · exact Rat.num_nonneg.mpr (mul_nonneg (abs_nonneg ang) (by positivity))
      · exact_mod_cast Nat.zero_le _
    show (if ang < 0 then "-" else "+")
        ++ pyZeroPad (ratTrunc (|ang| * ((10 ^ 1 : ℕ) : ℚ))) 3 = _
    unfold pyZeroPad
    rw [if_neg (not_lt.mpr hnn)]
  · intro hlen hr
    have h1 : ("0" : String).length = 1 := rfl
    have hl : ("0" ++ _fmt N 5 0 false).length ≤ 33 := by
      rw [String.length_append]
      omega
    unfold set_timelapse
    rw [communicate_ok st "STL" ("0" ++ _fmt N 5 0 false) response rest rfl hl hr]
    rfl

/-- Witness for C8's amended statement at `N = 5`, `ang = 20` over a transport
that acknowledges the first frame. -/
theorem timelapse_angle_encoding_witness :
    set_timelapse ⟨"", ["XXXXXX#"]⟩ 5 20 =
      _communicate ⟨"" ++ (":01" ++ "STL" ++ ("0" ++ _fmt 5 5 0 false) ++ "#"), []⟩
        "STL" ("1" ++ timelapseAngleField 20) true := by
  refine (timelapse_angle_encoding ⟨"", ["XXXXXX#"]⟩ 5 20 "XXXXXX#" []).2.2 ?_ (by decide)
  rw [fmt_eval (5 : ℚ) 5 0 false 5 (by norm_num)]
  decide

/-! ### Claim C9 -/

/-- Claim C9: an enumerated wire code outside its closed set never decodes to
a default variant: `STATUS` and `PANORAMA_MODE` lookup fail (`ValueError`) on
every string outside their value sets, and `check_last()` turns an
unrecognized panorama-mode payload into a raised error, not a result. -/
theorem unknown_reply_code (s : String) (st : Serial) (response : String)
    (rest : List String) :
    (s ∉ (["0", "1", "2", "3", "4", "5"] : List String) → STATUS.ofValue s = none) ∧
    (s ∉ (["0", "1", "2", "3"] : List String) → PANORAMA_MODE.ofValue s = none) ∧
    (readUntilHash st.pending "" = some (response, rest) →
      PANORAMA_MODE.ofValue ((response.drop 6).dropRight 1) = none →
      check_last st = .pyerr ⟨st.written ++ ":01GRE#", rest⟩) := by
  refine ⟨?_, ?_, ?_⟩
  · intro h
    have h0 : s ≠ "0" := fun e => h (by rw [e]; decide)
    have h1 : s ≠ "1" := fun e => h (by rw [e]; decide)
    have h2 : s ≠ "2" := fun e => h (by rw [e]; decide)
    have h3 : s ≠ "3" := fun e => h (by rw [e]; decide)
    have h4 : s ≠ "4" := fun e => h (by rw [e]; decide)
    have h5 : s ≠ "5" := fun e => h (by rw [e]; decide)
    unfold STATUS.ofValue
    rw [if_neg h0, if_neg h1, if_neg h2, if_neg h3, if_neg h4, if_neg h5]
  · intro h
    have h0 : s ≠ "0" := fun e => h (by rw [e]; decide)
    have h1 : s ≠ "1" := fun e => h (by rw [e]; decide)
    have h2 : s ≠ "2" := fun e => h (by rw [e]; decide)
    have h3 : s ≠ "3" := fun e => h (by rw [e]; decide)
    unfold PANORAMA_MODE.ofValue
    rw [if_neg h0, if_neg h1, if_neg h2, if_neg h3]
  · intro hr hnone
    unfold check_last
    rw [communicate_ok st "GRE" "" response rest rfl (by decide) hr]
    simp only [hnone]
    rfl

/-- Witness for C9 at the unknown wire code `"9"`: both enum decodes fail and
`check_last` over a transport replying with payload `"9"` raises. -/
theorem unknown_reply_code_witness :
    STATUS.ofValue "9" = none ∧ PANORAMA_MODE.ofValue "9" = none ∧
      check_last ⟨"", ["XXXXXX9#"]⟩ = .pyerr ⟨":01GRE#", []⟩ := by
  refine ⟨(unknown_reply_code "9" ⟨"", ["XXXXXX9#"]⟩ "XXXXXX9#" []).1 (by decide),
    (unknown_reply_code "9" ⟨"", ["XXXXXX9#"]⟩ "XXXXXX9#" []).2.1 (by decide),
    (unknown_reply_code "9" ⟨"", ["XXXXXX9#"]⟩ "XXXXXX9#" []).2.2 (by decide) (by decide)⟩

/-! ### Claim C10 -/

/-- Stringification of a `BadParameter` that does carry a value. -/
theorem badparameter_str_of_some (e : BadParameter) (v : String)
    (h : e.value = some v) :
    e.str = some ("[" ++ v ++ "] " ++ e.message) := by
  unfold BadParameter.str
  rw [h]

/-- Every `BadParameter` that `_communicate` raises carries a value. -/
theorem communicate_bad_value (st : Serial) (instr data : String) (output : Bool)
    (e : BadParameter) (st' : Serial)
    (h : _communicate st instr data output = .bad e st') :
    ∃ v, e.value = some v := by
  unfold _communicate at h
  split at h
  · rw [Res.bad.injEq] at h
    exact ⟨instr, by rw [← h.1]⟩
  · split at h
    · rw [Res.bad.injEq] at h
      exact ⟨Nat.repr data.length, by rw [← h.1]⟩
    · split at h
      · split at h
        · exact Res.noConfusion h
        · exact Res.noConfusion h
      · exact Res.noConfusion h

/-- Claim C10: stringifying a `BadParameter` with `value=None` itself fails
(the `__str__` path reads the misspelt, nonexistent attribute `mesage`),
whereas every `BadParameter` the facade's own operations raise carries a
non-`None` value and stringifies as `"[value] message"`. -/
theorem badparameter_str_paths (m : String) (st : Serial) (instr data a : String)
    (output : Bool) (alt az : ℚ) (id : ℤ) :
    BadParameter.str ⟨m, none⟩ = none ∧
    (∀ e st', _communicate st instr data output = .bad e st' →
      ∃ v, e.value = some v ∧ e.str = some ("[" ++ v ++ "] " ++ e.message)) ∧
    (∀ e st', goto st alt az = .bad e st' →
      ∃ v, e.value = some v ∧ e.str = some ("[" ++ v ++ "] " ++ e.message)) ∧
    (∀ e st', stop st (some a) = .bad e st' →
      ∃ v, e.value = some v ∧ e.str = some ("[" ++ v ++ "] " ++ e.message)) ∧
    (∀ e st', set_reference_point st id = .bad e st' →
      ∃ v, e.value = some v ∧ e.str = some ("[" ++ v ++ "] " ++ e.message)) := by
  refine ⟨rfl, ?_, ?_, ?_, ?_⟩
  · intro e st' h
    obtain ⟨v, hv⟩ := communicate_bad_value st instr data output e st' h
    exact ⟨v, hv, badparameter_str_of_some e v hv⟩
  · intro e st' h
    unfold goto at h
    split at h
    · rw [Res.bad.injEq] at h
      refine ⟨ratStr alt, ?_, ?_⟩
      · rw [← h.1]
      · exact badparameter_str_of_some e (ratStr alt) (by rw [← h.1])
    · split at h
      · rw [Res.bad.injEq] at h
        refine ⟨ratStr az, ?_, ?_⟩
        · rw [← h.1]
        · exact badparameter_str_of_some e (ratStr az) (by rw [← h.1])
      · obtain ⟨v, hv⟩ := communicate_bad_value _ _ _ _ e st' h
        exact ⟨v, hv, badparameter_str_of_some e v hv⟩
  · intro e st' h
    unfold stop at h
    dsimp only at h
    split at h
    · obtain ⟨v, hv⟩ := communicate_bad_value _ _ _ _ e st' h
      exact ⟨v, hv, badparameter_str_of_some e v hv⟩
    · split at h
      · obtain ⟨v, hv⟩ := communicate_bad_value _ _ _ _ e st' h
        exact ⟨v, hv, badparameter_str_of_some e v hv⟩
      · split at h
        · obtain ⟨v, hv⟩ := communicate_bad_value _ _ _ _ e st' h
          exact ⟨v, hv, badparameter_str_of_some e v hv⟩
        · rw [Res.bad.injEq] at h
          exact ⟨a, by rw [← h.1], badparameter_str_of_some e a (by rw [← h.1])⟩
  · intro e st' h
    unfold set_reference_point at h
    split at h
    · obtain ⟨v, hv⟩ := communicate_bad_value _ _ _ _ e st' h
      exact ⟨v, hv, badparameter_str_of_some e v hv⟩
    · split at h
      · obtain ⟨v, hv⟩ := communicate_bad_value _ _ _ _ e st' h
        exact ⟨v, hv, badparameter_str_of_some e v hv⟩
      · rw [Res.bad.injEq] at h
        refine ⟨if id < 0 then "-" ++ Nat.repr id.natAbs else Nat.repr id.natAbs, ?_, ?_⟩
        · rw [← h.1]
        · exact badparameter_str_of_some e
            (if id < 0 then "-" ++ Nat.repr id.natAbs else Nat.repr id.natAbs) (by rw [← h.1])

/-- Witness for C10: the no-value stringification failure and one concrete
raised error per raise site, each carrying a value and stringifying as
`"[value] message"`. -/
theorem badparameter_str_paths_witness :
    BadParameter.str ⟨"boom", none⟩ = none ∧
    (∃ v, (⟨"Instruction must be a 3 character sequence.", some "XX"⟩ : BadParameter).value = some v ∧
      (⟨"Instruction must be a 3 character sequence.", some "XX"⟩ : BadParameter).str =
        some ("[" ++ v ++ "] " ++
          (⟨"Instruction must be a 3 character sequence.", some "XX"⟩ : BadParameter).message)) ∧
    (∃ v, (⟨"Altitude must be in [-180, 180] range.", some "181"⟩ : BadParameter).value = some v ∧
      (⟨"Altitude must be in [-180, 180] range.", some "181"⟩ : BadParameter).str =
        some ("[" ++ v ++ "] " ++
          (⟨"Altitude must be in [-180, 180] range.", some "181"⟩ : BadParameter).message)) ∧
    (∃ v, (⟨"Axis must be None, \'alt\' or \'az\'.", some "x"⟩ : BadParameter).value = some v ∧
      (⟨"Axis must be None, \'alt\' or \'az\'.", some "x"⟩ : BadParameter).str =
        some ("[" ++ v ++ "] " ++
          (⟨"Axis must be None, \'alt\' or \'az\'.", some "x"⟩ : BadParameter).message)) ∧
    (∃ v, (⟨"ID can only be 0 or 2.", some "1"⟩ : BadParameter).value = some v ∧
      (⟨"ID can only be 0 or 2.", some "1"⟩ : BadParameter).str =
        some ("[" ++ v ++ "] " ++
          (⟨"ID can only be 0 or 2.", some "1"⟩ : BadParameter).message)) := by
  refine ⟨(badparameter_str_paths "boom" ⟨"", []⟩ "XX" "" "x" true 181 0 1).1,
    (badparameter_str_paths "boom" ⟨"", []⟩ "XX" "" "x" true 181 0 1).2.1
      ⟨"Instruction must be a 3 character sequence.", some "XX"⟩ ⟨"", []⟩ (by decide),
    (badparameter_str_paths "boom" ⟨"", []⟩ "XX" "" "x" true 181 0 1).2.2.1
      ⟨"Altitude must be in [-180, 180] range.", some "181"⟩ ⟨"", []⟩ ?_,
    (badparameter_str_paths "boom" ⟨"", []⟩ "XX" "" "x" true 181 0 1).2.2.2.1
      ⟨"Axis must be None, \'alt\' or \'az\'.", some "x"⟩ ⟨"", []⟩ (by decide),
    (badparameter_str_paths "boom" ⟨"", []⟩ "XX" "" "x" true 181 0 1).2.2.2.2
      ⟨"ID can only be 0 or 2.", some "1"⟩ ⟨"", []⟩ (by decide)⟩
  unfold goto
  rw [if_pos (by norm_num)]
  rfl

end IPano
